import Mathlib

/-!
Shallow embedding of the surface-plots dashboard core
(`src/plotly_helpers.py` and `src/app.py`).

Numeric values are modelled as `Rat` (exact rationals standing for the
Python floats), 2D grids as `List (List Rat)`, Python exceptions as
`Option`/`Except` results, and the mutable figure store as an
association list with Python-dict update semantics.
-/

set_option autoImplicit false
set_option linter.unusedVariables false

namespace SurfacePlots

/-- Python's `pat in s` substring test: `hasPrefixC pat l` is true when
`pat` is a prefix of `l`. -/
def hasPrefixC : List Char → List Char → Bool
  | [], _ => true
  | _ :: _, [] => false
  | c :: cs, d :: ds => c == d && hasPrefixC cs ds

/-- `hasInfixC pat l` is true when `pat` occurs contiguously in `l`. -/
def hasInfixC (pat : List Char) : List Char → Bool
  | [] => hasPrefixC pat []
  | d :: rest => hasPrefixC pat (d :: rest) || hasInfixC pat rest

/-- Python's `pat in s` for strings (substring membership). -/
def strContains (s pat : String) : Bool :=
  hasInfixC pat.toList s.toList

/-- The module-level `COLOR_SCALES` palette table of `plotly_helpers.py`,
as an association list palette name to ordered color list. -/
def COLOR_SCALES : List (String × List String) := [
  ("Set3", [
    "#8DD3C7", "#FFFFB3", "#BEBADA", "#FB8072", "#80B1D3", "#FDB462",
    "#B3DE69", "#FCCDE5", "#D9D9D9", "#BC80BD", "#CCEBC5", "#FFED6F"]),
  ("R_rainbow_10", [
    "#FF0000", "#FF9900", "#CCFF00", "#33FF00", "#00FF66", "#00FFFF",
    "#0066FF", "#3300FF", "#CC00FF", "#FF0099"]),
  ("D3", [
    "#1f77b4", "#ff7f0e", "#2ca02c", "#d62728", "#9467bd", "#8c564b",
    "#e377c2", "#7f7f7f", "#bcbd22", "#17becf"]),
  ("Plotly", [
    "#636efa", "#EF553B", "#00cc96", "#ab63fa", "#FFA15A", "#19d3f3",
    "#FF6692", "#B6E880", "#FF97FF", "#FECB52"]),
  ("G10", [
    "#3366CC", "#DC3912", "#FF9900", "#109618", "#990099", "#3B3EAC",
    "#0099C6", "#DD4477", "#66AA00", "#B82E2E"]),
  ("Set1", [
    "#e41a1c", "#377eb8", "#4daf4a", "#984ea3", "#ff7f00", "#ffff33",
    "#a65628", "#f781bf", "#999999"]),
  ("Light24", [
    "#FD3216", "#00FE35", "#6A76FC", "#FED4C4", "#FE00CE", "#0DF9FF",
    "#F6F926", "#FF9616", "#479B55", "#EEA6FB", "#DC587D", "#D626FF",
    "#6E899C", "#00B5F7", "#B68E00", "#C9FBE5", "#FF0092", "#22FFA7",
    "#E3EE9E", "#86CE00", "#BC7196", "#7E7DCD", "#FC6955", "#E48F72"]),
  ("Vivid", [
    "rgb(229, 134, 6)", "rgb(93, 105, 177)", "rgb(82, 188, 163)",
    "rgb(153, 201, 69)", "rgb(204, 97, 176)", "rgb(36, 121, 108)",
    "rgb(218, 165, 27)", "rgb(47, 138, 196)", "rgb(118, 78, 159)",
    "rgb(237, 100, 90)", "rgb(165, 170, 153)"]),
  ("Pastel", [
    "rgb(102, 197, 204)", "rgb(246, 207, 113)", "rgb(248, 156, 116)",
    "rgb(220, 176, 242)", "rgb(135, 197, 95)", "rgb(158, 185, 243)",
    "rgb(254, 136, 177)", "rgb(201, 219, 116)", "rgb(139, 224, 164)",
    "rgb(180, 151, 231)", "rgb(179, 179, 179)"])
]

/-- `np.linspace(0, 1, n + 1)`: the `n + 1` evenly spaced rationals
`0/n, 1/n, ..., n/n`. -/
def linspace01 (n : Nat) : List Rat :=
  (List.range (n + 1)).map (fun (i : Nat) => (i : Rat) / (n : Rat))

/-- The loop of `make_colorscale_distinct`: for `i` in `range n`, append
`(scaled_values[i], colors[i])` and `(scaled_values[i + 1], colors[i])`.
Python list indexing raises `IndexError` out of bounds, modelled by
`none`. -/
def build_entries (scaled_values : List Rat) (colors : List String) :
    Nat → Option (List (Rat × String))
  | 0 => some []
  | n + 1 =>
    match build_entries scaled_values colors n, scaled_values.get? n,
        scaled_values.get? (n + 1), colors.get? n with
    | some acc, some sv1, some sv2, some c => some (acc ++ [(sv1, c), (sv2, c)])
    | _, _, _, _ => none

/-- `make_colorscale_distinct(n_colors, pal)`: stepped colorscale from the
first `n_colors` entries of palette `pal`.  Unknown palettes raise
`ValueError`; an out-of-range color index raises `IndexError`. -/
def make_colorscale_distinct (n_colors : Nat) (pal : String) :
    Except String (List (Rat × String)) :=
  let scaled_values := linspace01 n_colors
  match COLOR_SCALES.lookup pal with
  | none => .error ("ValueError: Palette " ++ pal ++ " not found in COLOR_SCALES")
  | some palette_colors =>
    let colors := palette_colors.take n_colors
    match build_entries scaled_values colors n_colors with
    | some colorscale => .ok colorscale
    | none => .error "IndexError"

/-- `np.arange(0, stop, step)` for naturals: `0, step, 2*step, ... < stop`. -/
def arange (stop step : Nat) : List Nat :=
  (List.range ((stop + step - 1) / step)).map (fun i => i * step)

/-- The fields of the `go.Surface` built by `create_surface` that the
specification talks about. -/
structure Surface where
  x : List Rat
  y : List Rat
  z : List (List Rat)
  opacity : Rat
  colorscale : List (Rat × String)
  cmin : Nat
  cmax : Nat
  showscale : Bool
  colorbar_tickvals : List Nat
  ambient : Rat
  diffuse : Rat
  deriving Repr, DecidableEq

/-- `create_surface` from `plotly_helpers.py`: packages grid, colorscale
and styling into a surface descriptor.  The colorbar ticks are
`np.arange(0, n_colors + 1, 2)` when `n_colors > 6`, else step 1. -/
def create_surface (x y : List Rat) (z : List (List Rat))
    (colors_scaled : List (Rat × String)) (n_colors : Nat)
    (opacity : Rat := 1) (show_colorbar : Bool := false)
    (ambient_light : Rat := 9 / 10) : Surface :=
  { x := x
    y := y
    z := z
    opacity := opacity
    colorscale := colors_scaled
    cmin := 0
    cmax := n_colors
    showscale := show_colorbar
    colorbar_tickvals :=
      if n_colors > 6 then arange (n_colors + 1) 2 else arange (n_colors + 1) 1
    ambient := ambient_light
    diffuse := 1 / 2 }

/-- One scene axis as configured by `create_layout`: its range and its
tick values/labels. -/
structure AxisConfig where
  range : List Rat
  ticktext : List String
  tickvals : List Rat
  deriving Repr, DecidableEq

/-- The parts of the `go.Layout` built by `create_layout` that the
specification talks about: the three axes and the z anchors of the two
surface-name pointer annotations. -/
structure SceneLayout where
  xaxis : AxisConfig
  yaxis : AxisConfig
  zaxis : AxisConfig
  ann1_z : Rat
  ann2_z : Rat
  deriving Repr, DecidableEq

/-- `_extracted_from_create_layout_31(arg0)`: returns `arg0[-1][-1]`, the
bottom-right corner of the 2D list.  Python raises `IndexError` when the
outer list or its last row is empty, modelled by `none`. -/
def _extracted_from_create_layout_31 (arg0 : List (List Rat)) : Option Rat :=
  match arg0.getLast? with
  | none => none
  | some last_row => last_row.getLast?

/-- `create_layout` from `plotly_helpers.py`, restricted to the axis and
annotation data actually derived from the inputs.  `none` models the
`IndexError` raised while reading an empty grid's corner value. -/
def create_layout (x_label y_label z_label : String)
    (surface_1_name surface_2_name : String)
    (surface_1_2d_list surface_2_2d_list : List (List Rat))
    (x_scale : Rat := 1) (y_scale : Rat := 1 / 2) (z_scale : Rat := 1 / 2) :
    Option SceneLayout :=
  let is_wpi := strContains surface_1_name "WPI"
  let y_tick_labels_cs := ["0", "0.5", "1.0", "1.5"]
  let y_tick_vals_cs : List Rat := [0, 1 / 2, 1, 3 / 2]
  let y_tick_labels_wpi := ["15", "12", "9", "6"]
  let y_tick_vals_wpi : List Rat := [15, 12, 9, 6]
  let z_tick_labels_see := ["", "2", "4", "6", "8", "10", "12", "14"]
  let z_tick_vals_see : List Rat := [0, 2, 4, 6, 8, 10, 12, 14]
  let z_tick_labels_wpi :=
    ["", "2", "4", "6", "8", "10", "12", "14", "16", "18", "20"]
  let z_tick_vals_wpi : List Rat := [0, 2, 4, 6, 8, 10, 12, 14, 16, 18, 20]
  let z_tick_labels_shown := if is_wpi then z_tick_labels_wpi else z_tick_labels_see
  let z_tick_vals_shown := if is_wpi then z_tick_vals_wpi else z_tick_vals_see
  match _extracted_from_create_layout_31 surface_1_2d_list,
      _extracted_from_create_layout_31 surface_2_2d_list with
  | some annotation_1_z, some annotation_2_z => some
    { xaxis :=
        { range := [0, 10]
          ticktext := ["0", "2", "4", "6", "8", "10"]
          tickvals := [0, 2, 4, 6, 8, 10] }
      yaxis :=
        { range := if strContains surface_1_name "WPI" then [15, 6] else [0, 3 / 2]
          ticktext :=
            if strContains surface_1_name "WPI" then y_tick_labels_wpi
            else y_tick_labels_cs
          tickvals :=
            if strContains surface_1_name "WPI" then y_tick_vals_wpi
            else y_tick_vals_cs }
      zaxis :=
        { range := if strContains surface_1_name "SEE" then [0, 14] else [0, 6]
          ticktext := z_tick_labels_shown
          tickvals := z_tick_vals_shown }
      ann1_z := annotation_1_z
      ann2_z := annotation_2_z }
  | _, _ => none

/-- `np.max` over a nonempty list of rationals; `none` models the error
`np.max` raises on an empty array. -/
def listMax : List Rat → Option Rat
  | [] => none
  | x :: xs => some (xs.foldl max x)

/-- `np.min` over a nonempty list of rationals. -/
def listMin : List Rat → Option Rat
  | [] => none
  | x :: xs => some (xs.foldl min x)

/-- `percentage_difference(base_array, compare_array)`: elementwise
`100 * |base - compare| / (max(base) - min(base))`, computed exactly as
in the source (difference, then max/min, then the two scalings). -/
def percentage_difference (base_array compare_array : List Rat) :
    Option (List Rat) :=
  let difference := List.zipWith (fun a b => |a - b|) base_array compare_array
  match listMax base_array, listMin base_array with
  | some max_value, some min_value =>
    let max_possible_difference := max_value - min_value
    let normalized_difference := difference.map (fun d => d / max_possible_difference)
    some (normalized_difference.map (fun d => d * 100))
  | _, _ => none

/-- One input entry of `add_traces_to_figure`: a data dictionary with a
`type` discriminator, coordinates, and the optional `text`/`color`
payloads. -/
structure TraceData where
  type : String
  x : List Rat
  y : List Rat
  z : List Rat
  text : List String
  color : String
  deriving Repr, DecidableEq

/-- A trace held by a figure: an original surface, or one of the two
primitives `add_traces_to_figure` can append. -/
inductive Trace where
  | surfaceTrace (s : Surface)
  | scatter3d (x y z : List Rat) (mode : String) (text : List String)
      (textposition : String) (showlegend : Bool)
  | cone (x y z : List Rat) (u v w : List Int) (anchor : String)
      (colorscale : List (Rat × String)) (showscale : Bool) (showlegend : Bool)
  deriving Repr, DecidableEq

/-- `add_traces_to_figure(figure, data)`: appends a `scatter3d` text
trace or a `cone` trace per entry, according to its `type`; entries of
any other type fall through the `if`/`elif` and are skipped. -/
def add_traces_to_figure (figure : List Trace) : List TraceData → List Trace
  | [] => figure
  | trace :: rest =>
    if trace.type == "scatter3d" then
      add_traces_to_figure
        (figure ++ [Trace.scatter3d trace.x trace.y trace.z "text" trace.text
          "top center" false]) rest
    else if trace.type == "cone" then
      add_traces_to_figure
        (figure ++ [Trace.cone trace.x trace.y trace.z [0] [0] [-2] "tip"
          [(0, trace.color), (1, trace.color)] false false]) rest
    else
      add_traces_to_figure figure rest

/-- The figure store of `app.py`: selection key to trace list. -/
def FigureStore := List (String × List Trace)

/-- Python dict read `d[k]` (first matching key). -/
def dictGet (d : List (String × List Trace)) (k : String) : Option (List Trace) :=
  match d with
  | [] => none
  | p :: rest => if p.1 == k then some p.2 else dictGet rest k

/-- Python dict write `d[k] = v`: replace the binding when the key is
present, append it otherwise. -/
def dictSet (d : List (String × List Trace)) (k : String) (v : List Trace) :
    List (String × List Trace) :=
  match d with
  | [] => [(k, v)]
  | p :: rest => if p.1 == k then (k, v) :: rest else p :: dictSet rest k v

/-- The `add_trace` callback of `app.py`: a `None` click counter is a
no-op returning the store unchanged; otherwise the two data dictionaries
(one `scatter3d` label at `(x, y, z)`, one `cone` at `(x, y, z - 1)`)
are appended to the current figure, which is stored back under the
selected graph's key. -/
def add_trace (n_clicks : Option Nat) (x y z : Rat) (text color : String)
    (figure_dict : List Trace) (selected_graph : String)
    (figures_dict : List (String × List Trace)) : List (String × List Trace) :=
  match n_clicks with
  | none => figures_dict
  | some _ =>
    let data_dicts : List TraceData :=
      [{ type := "scatter3d", x := [x], y := [y], z := [z], text := [text],
         color := "" },
       { type := "cone", x := [x], y := [y], z := [z - 1], text := [],
         color := color }]
    let figure := add_traces_to_figure figure_dict data_dicts
    dictSet figures_dict selected_graph figure

/-- The body of the module-level pair loop of `app.py` (from the
`data_1_max`/`data_2_max` computation through the two `create_surface`
calls): builds the pair's two surface descriptors, with the emphasis
styling decided by comparing the grid maxima, and the `n_colors`
doubling for `"SEE"` identifiers.  `none` models the error `np.max`
raises on an empty array. -/
def pair_loop_body (names_0 names_1 : String) (x y : List Rat)
    (data_1 data_2 : List (List Rat))
    (colorscale_1 colorscale_2 : List (Rat × String))
    (n_colors_1 n_colors_2 : Nat) : Option (Surface × Surface) :=
  match listMax data_1.flatten, listMax data_2.flatten with
  | some data_1_max, some data_2_max =>
    let surface_1 := create_surface x y data_1 colorscale_1
      (if ¬ strContains names_0 "SEE" then n_colors_1 else n_colors_1 * 2)
      (if data_2_max > data_1_max then 1 else 4 / 5)
      (if data_2_max > data_1_max then false else true)
      (if data_2_max > data_1_max then 9 / 10 else 1 / 2)
    let surface_2 := create_surface x y data_2 colorscale_2
      (if ¬ strContains names_1 "SEE" then n_colors_2 else n_colors_2 * 2)
      (if data_2_max > data_1_max then 4 / 5 else 1)
      (if data_2_max > data_1_max then true else false)
      (if data_2_max > data_1_max then 1 / 2 else 9 / 10)
    some (surface_1, surface_2)
  | _, _ => none

/-- Closed form of the colorscale the `make_colorscale_distinct` loop
builds when no index is out of range: for each `i < n` the two entries
`(scaled_values[i], colors[i])` and `(scaled_values[i + 1], colors[i])`. -/
def entriesList (scaled_values : List Rat) (colors : List String) :
    Nat → List (Rat × String)
  | 0 => []
  | n + 1 => entriesList scaled_values colors n ++
      [(scaled_values.getD n 0, colors.getD n ""),
       (scaled_values.getD (n + 1) 0, colors.getD n "")]

section HelperLemmas

theorem dictGet_dictSet (d : List (String × List Trace)) (k : String)
    (v : List Trace) : dictGet (dictSet d k v) k = some v := by
  induction d with
  | nil => simp [dictGet, dictSet]
  | cons p rest ih =>
    by_cases h : p.1 == k
    · simp [dictGet, dictSet, h]
    · simp only [dictSet, h, if_neg]
      simp [dictGet, h, ih]

theorem add_traces_length (data : List TraceData) :
    ∀ figure : List Trace,
      (add_traces_to_figure figure data).length =
        figure.length +
          data.countP (fun t => t.type == "scatter3d" || t.type == "cone") := by
  induction data with
  | nil => intro figure; simp [add_traces_to_figure]
  | cons t rest ih =>
    intro figure
    by_cases h1 : t.type == "scatter3d"
    · simp [add_traces_to_figure, h1, ih, List.countP_cons]
      omega
    · by_cases h2 : t.type == "cone"
      · simp [add_traces_to_figure, h1, h2, ih, List.countP_cons]
        omega
      · simp [add_traces_to_figure, h1, h2, ih, List.countP_cons]

theorem get?_some_getD {α : Type} (l : List α) (n : Nat) (d : α)
    (h : n < l.length) : l.get? n = some (l.getD n d) := by
  simp [List.get?_eq_getElem?, List.getElem?_eq_getElem h]

theorem build_entries_eq (sv : List Rat) (colors : List String) :
    ∀ n, n ≤ colors.length → n + 1 ≤ sv.length →
      build_entries sv colors n = some (entriesList sv colors n) := by
  intro n
  induction n with
  | zero => intro _ _; rfl
  | succ n ih =>
    intro h1 h2
    simp only [build_entries, ih (by omega) (by omega),
      get?_some_getD sv n 0 (by omega), get?_some_getD sv (n + 1) 0 (by omega),
      get?_some_getD colors n "" (by omega), entriesList]

theorem build_entries_overflow (sv : List Rat) (colors : List String) :
    ∀ n, colors.length < n → build_entries sv colors n = none := by
  intro n
  induction n with
  | zero => intro h; omega
  | succ n ih =>
    intro h
    by_cases hn : colors.length < n
    · have ihn := ih hn
      cases h2 : sv.get? n <;> cases h3 : sv.get? (n + 1) <;>
        cases h4 : colors.get? n <;> simp [build_entries, ihn, h2, h3, h4]
    · have hc : colors[n]? = none := List.getElem?_eq_none (by omega)
      cases hb : build_entries sv colors n <;> cases h2 : sv[n]? <;>
        cases h3 : sv[n + 1]? <;> simp [build_entries, hb, h2, h3, hc]

theorem entriesList_length (sv : List Rat) (colors : List String) :
    ∀ n, (entriesList sv colors n).length = 2 * n := by
  intro n
  induction n with
  | zero => rfl
  | succ n ih =>
    simp only [entriesList, List.length_append, ih, List.length_cons,
      List.length_nil]
    omega

theorem entriesList_get? (sv : List Rat) (colors : List String) :
    ∀ n k, k < 2 * n →
      (entriesList sv colors n).get? k =
        some (sv.getD ((k + 1) / 2) 0, colors.getD (k / 2) "") := by
  intro n
  induction n with
  | zero => intro k hk; omega
  | succ n ih =>
    intro k hk
    have hlen : (entriesList sv colors n).length = 2 * n :=
      entriesList_length sv colors n
    by_cases hklt : k < 2 * n
    · simp only [entriesList]
      rw [List.get?_eq_getElem?, List.getElem?_append_left (by omega),
        ← List.get?_eq_getElem?]
      exact ih k hklt
    · rcases (by omega : k = 2 * n ∨ k = 2 * n + 1) with rfl | rfl
      · have e1 : (2 * n + 1) / 2 = n := by omega
        have e2 : 2 * n / 2 = n := by omega
        simp only [entriesList]
        rw [List.get?_eq_getElem?, List.getElem?_append_right (by omega), hlen]
        simp [e1, e2]
      · have e1 : (2 * n + 1 + 1) / 2 = n + 1 := by omega
        have e2 : (2 * n + 1) / 2 = n := by omega
        simp only [entriesList]
        rw [List.get?_eq_getElem?, List.getElem?_append_right (by omega), hlen]
        simp [e1, e2, show 2 * n + 1 - 2 * n = 1 by omega]

theorem linspace01_length (n : Nat) : (linspace01 n).length = n + 1 := by
  simp only [linspace01, List.length_map, List.length_range]

theorem linspace01_getD (n i : Nat) (h : i ≤ n) :
    (linspace01 n).getD i 0 = (i : Rat) / n := by
  rw [List.getD_eq_getElem?_getD, linspace01, List.getElem?_map,
    List.getElem?_range (show i < n + 1 by omega)]
  rfl

theorem linspace01_val_le (n i j : Nat) (hij : i ≤ j) (hj : j ≤ n) :
    (i : Rat) / n ≤ (j : Rat) / n := by
  rcases Nat.eq_zero_or_pos n with rfl | hn
  · have hj0 : j = 0 := by omega
    have hi0 : i = 0 := by omega
    subst hj0; subst hi0
    simp
  · have hc : (0 : Rat) < n := by exact_mod_cast hn
    rw [div_le_div_iff_of_pos_right hc]
    exact_mod_cast hij

theorem lookup_mem (l : List (String × List String)) (k : String)
    (v : List String) : l.lookup k = some v → (k, v) ∈ l := by
  induction l with
  | nil => intro h; simp [List.lookup] at h
  | cons p rest ih =>
    intro h
    obtain ⟨a, b⟩ := p
    cases hk : (k == a) with
    | false =>
      simp only [List.lookup, hk] at h
      exact List.mem_cons_of_mem _ (ih h)
    | true =>
      simp only [List.lookup, hk, Option.some.injEq] at h
      have hka : k = a := eq_of_beq hk
      subst hka
      subst h
      exact List.mem_cons_self _ _

theorem palettes_nodup : ∀ p ∈ COLOR_SCALES, p.2.Nodup := by decide

theorem getD_take (l : List String) (n i : Nat) (h : i < n) :
    (l.take n).getD i "" = l.getD i "" := by
  simp [List.getElem?_take_of_lt h]

theorem entriesList_countP_past (sv : List Rat) (colors : List String)
    (hnd : colors.Nodup) :
    ∀ n, n ≤ colors.length → ∀ i, n ≤ i → i < colors.length →
      (entriesList sv colors n).countP (fun p => p.2 == colors.getD i "") = 0 := by
  intro n
  induction n with
  | zero => intro _ i _ _; rfl
  | succ n ih =>
    intro hle i hni hi
    have h1 : n < colors.length := by omega
    have hne : colors.getD n "" ≠ colors.getD i "" := by
      intro he
      have e1 : colors.getD n "" = colors[n] := by
        simp [List.getElem?_eq_getElem h1]
      have e2 : colors.getD i "" = colors[i] := by
        simp [List.getElem?_eq_getElem hi]
      rw [e1, e2] at he
      exact absurd (hnd.getElem_inj_iff.mp he) (by omega)
    simp only [entriesList, List.countP_append, ih (by omega) i (by omega) hi,
      List.countP_cons, List.countP_nil]
    simpa using hne

theorem entriesList_countP_two (sv : List Rat) (colors : List String)
    (hnd : colors.Nodup) :
    ∀ n, n ≤ colors.length → ∀ i, i < n →
      (entriesList sv colors n).countP (fun p => p.2 == colors.getD i "") = 2 := by
  intro n
  induction n with
  | zero => intro _ i hi; omega
  | succ n ih =>
    intro hle i hi
    by_cases hin : i < n
    · have h1 : n < colors.length := by omega
      have hilen : i < colors.length := by omega
      have hne : colors.getD n "" ≠ colors.getD i "" := by
        intro he
        have e1 : colors.getD n "" = colors[n] := by
          simp [List.getElem?_eq_getElem h1]
        have e2 : colors.getD i "" = colors[i] := by
          simp [List.getElem?_eq_getElem hilen]
        rw [e1, e2] at he
        exact absurd (hnd.getElem_inj_iff.mp he) (by omega)
      simp only [entriesList, List.countP_append, ih (by omega) i hin,
        List.countP_cons, List.countP_nil]
      simpa using hne
    · have hieq : i = n := by omega
      subst hieq
      have hzero := entriesList_countP_past sv colors hnd i (by omega) i
        (by omega) (by omega)
      simp only [entriesList, List.countP_append, hzero, List.countP_cons,
        List.countP_nil]
      simp

theorem head?_eq_get?0 {α : Type} (l : List α) : l.head? = l.get? 0 := by
  cases l <;> rfl

theorem getLast?_eq_get? {α : Type} (l : List α) :
    l.getLast? = l.get? (l.length - 1) := by
  induction l with
  | nil => rfl
  | cons a t ih =>
    cases t with
    | nil => rfl
    | cons b t2 =>
      rw [List.getLast?_cons_cons, ih]
      simp

end HelperLemmas

section ClaimTheorems

/-- Claim C7: when the add-annotation handler runs with a null click
counter (the add trigger never fired), it returns the figure store it
was given, unchanged. -/
theorem add_trace_no_trigger_is_noop (x y z : Rat) (text color : String)
    (figure_dict : List Trace) (selected_graph : String)
    (figures_dict : List (String × List Trace)) :
    add_trace none x y z text color figure_dict selected_graph figures_dict =
      figures_dict := rfl

/-- Claim C5: a triggered add-annotation action on the selected artifact
stores back exactly the old trace list extended by one text label at
`(x, y, z)` and one downward cone (field `w = [-2]`, anchored at the
tip) at `(x, y, z - 1)` with a solid two-stop single-color scale, no
colorbar and no legend — so the stored artifact holds `k + 2` traces. -/
theorem add_trace_appends_label_and_cone (m : Nat) (x y z : Rat)
    (text color : String) (figure_dict : List Trace) (selected_graph : String)
    (figures_dict : List (String × List Trace)) :
    dictGet (add_trace (some m) x y z text color figure_dict selected_graph
        figures_dict) selected_graph =
      some (figure_dict ++
        [Trace.scatter3d [x] [y] [z] "text" [text] "top center" false,
         Trace.cone [x] [y] [z - 1] [0] [0] [-2] "tip"
           [(0, color), (1, color)] false false]) ∧
    (figure_dict ++
        [Trace.scatter3d [x] [y] [z] "text" [text] "top center" false,
         Trace.cone [x] [y] [z - 1] [0] [0] [-2] "tip"
           [(0, color), (1, color)] false false]).length =
      figure_dict.length + 2 := by
  constructor
  · have h : add_trace (some m) x y z text color figure_dict selected_graph
        figures_dict =
        dictSet figures_dict selected_graph (figure_dict ++
          [Trace.scatter3d [x] [y] [z] "text" [text] "top center" false,
           Trace.cone [x] [y] [z - 1] [0] [0] [-2] "tip"
             [(0, color), (1, color)] false false]) := by
      simp [add_trace, add_traces_to_figure]
    rw [h, dictGet_dictSet]
  · simp

/-- Claim C10: `add_traces_to_figure` appends one trace per entry whose
type is `scatter3d` or `cone` (so the output length is the input length
plus the count of such entries), and an entry of any other type is
skipped: it leaves the figure exactly as the remaining entries alone
would. -/
theorem add_traces_skips_unknown_types (figure : List Trace)
    (data : List TraceData) :
    (add_traces_to_figure figure data).length =
      figure.length +
        data.countP (fun t => t.type == "scatter3d" || t.type == "cone") ∧
    (∀ (t : TraceData) (rest : List TraceData), t.type ≠ "scatter3d" →
      t.type ≠ "cone" →
      add_traces_to_figure figure (t :: rest) =
        add_traces_to_figure figure rest) := by
  refine ⟨add_traces_length data figure, ?_⟩
  intro t rest h1 h2
  simp [add_traces_to_figure, h1, h2]

/-- Claim C1: in the pair loop, when `max(grid2) > max(grid1)` surface 1
is styled as background (opacity 1, colorbar hidden, ambient 0.9) and
surface 2 as foreground (opacity 0.8, colorbar shown, ambient 0.5);
otherwise — ties included — the assignment is reversed, so surface 1
carries the colorbar. -/
theorem pair_emphasis_assignment (names_0 names_1 : String) (x y : List Rat)
    (data_1 data_2 : List (List Rat))
    (colorscale_1 colorscale_2 : List (Rat × String))
    (n_colors_1 n_colors_2 : Nat) (m1 m2 : Rat) (s1 s2 : Surface)
    (h1 : listMax data_1.flatten = some m1)
    (h2 : listMax data_2.flatten = some m2)
    (h3 : pair_loop_body names_0 names_1 x y data_1 data_2 colorscale_1
      colorscale_2 n_colors_1 n_colors_2 = some (s1, s2)) :
    (m2 > m1 →
      s1.opacity = 1 ∧ s1.showscale = false ∧ s1.ambient = 9 / 10 ∧
      s2.opacity = 4 / 5 ∧ s2.showscale = true ∧ s2.ambient = 1 / 2) ∧
    (¬ m2 > m1 →
      s1.opacity = 4 / 5 ∧ s1.showscale = true ∧ s1.ambient = 1 / 2 ∧
      s2.opacity = 1 ∧ s2.showscale = false ∧ s2.ambient = 9 / 10) := by
  simp only [pair_loop_body, h1, h2, Option.some.injEq, Prod.mk.injEq] at h3
  obtain ⟨hs1, hs2⟩ := h3
  subst hs1
  subst hs2
  constructor <;> intro hc <;> simp [create_surface, hc]

/-- Claim C1 witness: a tied pair (`max1 = max2 = 1`) takes the reversed
branch, so surface 1 shows the colorbar. -/
theorem pair_emphasis_witness :
    (create_surface [] [] [[1]] []
      (if ¬ strContains "A" "SEE" then 1 else 1 * 2)
      (if (1 : Rat) > 1 then 1 else 4 / 5)
      (if (1 : Rat) > 1 then false else true)
      (if (1 : Rat) > 1 then 9 / 10 else 1 / 2)).showscale = true :=
  ((pair_emphasis_assignment "A" "B" [] [] [[1]] [[1]] [] [] 1 1 1 1 _ _
      (by decide) (by decide) rfl).2 (by decide)).2.1

/-- Claim C10 witness: an entry of type `"surface"` is skipped. -/
theorem add_traces_skip_witness :
    add_traces_to_figure [] [⟨"surface", [], [], [], [], ""⟩] =
      add_traces_to_figure [] [] :=
  (add_traces_skips_unknown_types [] []).2 ⟨"surface", [], [], [], [], ""⟩ []
    (by decide) (by decide)

/-- Claim C6 (corrected): colorbar ticks of a surface descriptor step by
2 when `n_colors > 6` and by 1 otherwise; they always start at 0, but
`n_colors` itself is a tick exactly when `n_colors ≤ 6` or `n_colors`
is even (`np.arange(0, n + 1, 2)` stops below an odd `n`). -/
theorem create_surface_colorbar_ticks (x y : List Rat) (z : List (List Rat))
    (colors_scaled : List (Rat × String)) (n : Nat) (op : Rat) (sb : Bool)
    (al : Rat) :
    (n ≤ 6 →
      (create_surface x y z colors_scaled n op sb al).colorbar_tickvals =
        List.range (n + 1)) ∧
    (n > 6 →
      (create_surface x y z colors_scaled n op sb al).colorbar_tickvals =
        (List.range (n / 2 + 1)).map (fun i => i * 2)) ∧
    (n ∈ (create_surface x y z colors_scaled n op sb al).colorbar_tickvals ↔
      n ≤ 6 ∨ n % 2 = 0) := by
  have harange1 : arange (n + 1) 1 = List.range (n + 1) := by
    have e : (n + 1 + 1 - 1) / 1 = n + 1 := by omega
    simp [arange, e]
  have harange2 : arange (n + 1) 2 = (List.range (n / 2 + 1)).map (fun i => i * 2) := by
    have e : (n + 1 + 2 - 1) / 2 = n / 2 + 1 := by omega
    simp [arange, e]
  refine ⟨?_, ?_, ?_⟩
  · intro h
    simp [create_surface, show ¬ n > 6 by omega, harange1]
  · intro h
    simp [create_surface, h, harange2]
  · by_cases h : n > 6
    · simp only [create_surface, if_pos h, harange2, List.mem_map,
        List.mem_range]
      constructor
      · rintro ⟨i, hi, rfl⟩
        omega
      · intro h'
        exact ⟨n / 2, by omega, by omega⟩
    · simp only [create_surface, if_neg h, harange1, List.mem_range]
      omega

/-- Claim C6 counterexample: with `n_colors = 7` the colorbar ticks are
`[0, 2, 4, 6]`, so `n_colors` itself is not a tick position even though
the ticks are claimed to span `0..n_colors` inclusive. -/
theorem create_surface_ticks_cex :
    (create_surface [] [] [] [] 7).colorbar_tickvals = [0, 2, 4, 6] ∧
    ¬ 7 ∈ (create_surface [] [] [] [] 7).colorbar_tickvals := by
  decide

/-- Claim C6 witness: at `n_colors = 5` the ticks are every unit from 0
through 5. -/
theorem create_surface_ticks_witness :
    (create_surface [] [] [] [] 5).colorbar_tickvals = List.range (5 + 1) :=
  (create_surface_colorbar_ticks [] [] [] [] 5 1 false (9 / 10)).1 (by decide)

/-- Claim C8: the layout builder is a pure function that errors exactly
on malformed grids: an empty input grid makes it fail fast (the
`IndexError` of `grid[-1][-1]`, modelled as `none`), while any pair of
grids with nonempty last rows yields a layout. -/
theorem create_layout_fails_fast_on_empty (xl yl zl n1 n2 : String)
    (g1 g2 : List (List Rat)) :
    (g1 = [] ∨ g2 = [] → create_layout xl yl zl n1 n2 g1 g2 = none) ∧
    (∀ r1 r2 : List Rat, g1.getLast? = some r1 → r1 ≠ [] →
      g2.getLast? = some r2 → r2 ≠ [] →
      (create_layout xl yl zl n1 n2 g1 g2).isSome = true) := by
  constructor
  · rintro (rfl | rfl)
    · simp [create_layout, _extracted_from_create_layout_31]
    · cases hc : _extracted_from_create_layout_31 g1 <;>
        simp [create_layout, _extracted_from_create_layout_31, hc]
  · intro r1 r2 h1 hr1 h2 hr2
    have c1 : _extracted_from_create_layout_31 g1 = r1.getLast? := by
      simp [_extracted_from_create_layout_31, h1]
    have c2 : _extracted_from_create_layout_31 g2 = r2.getLast? := by
      simp [_extracted_from_create_layout_31, h2]
    obtain ⟨a1, ha1⟩ := Option.isSome_iff_exists.mp (List.getLast?_isSome.mpr hr1)
    obtain ⟨a2, ha2⟩ := Option.isSome_iff_exists.mp (List.getLast?_isSome.mpr hr2)
    simp [create_layout, c1, c2, ha1, ha2]

/-- Claim C8 witness: an empty first grid makes the layout builder fail
fast. -/
theorem create_layout_empty_witness :
    create_layout "a" "b" "c" "A" "B" [] [[1]] = none :=
  (create_layout_fails_fast_on_empty "a" "b" "c" "A" "B" [] [[1]]).1 (Or.inl rfl)

/-- Claim C2 counterexample: for surface-1 identifier `"WPI_SEE_A"` the
built layout has z-axis range `[0, 14]` but z tick values
`0, 2, ..., 20` — not `0, 2, ..., 14` as claimed, because the tick set
is selected by the `"WPI"` substring, not by `"SEE"`. -/
theorem create_layout_wpi_see_cex :
    create_layout "Wave Height [m]" "Wave Period [s]" "SEE Index"
        "WPI_SEE_A" "WPI_SEE_B" [[1]] [[1]] =
      some
        { xaxis :=
            { range := [0, 10]
              ticktext := ["0", "2", "4", "6", "8", "10"]
              tickvals := [0, 2, 4, 6, 8, 10] }
          yaxis :=
            { range := [15, 6]
              ticktext := ["15", "12", "9", "6"]
              tickvals := [15, 12, 9, 6] }
          zaxis :=
            { range := [0, 14]
              ticktext := ["", "2", "4", "6", "8", "10", "12", "14", "16",
                "18", "20"]
              tickvals := [0, 2, 4, 6, 8, 10, 12, 14, 16, 18, 20] }
          ann1_z := 1
          ann2_z := 1 } ∧
    ([0, 2, 4, 6, 8, 10, 12, 14, 16, 18, 20] : List Rat) ≠
      [0, 2, 4, 6, 8, 10, 12, 14] := by
  decide

/-- Claim C2 (corrected): the z-axis range is `[0, 14]` for identifiers
containing `"SEE"` and `[0, 6]` otherwise, but the z tick values and
labels are selected by `"WPI"`: identifiers containing `"WPI"` get
`0, 2, ..., 20`, all others get `0, 2, ..., 14`; the label at 0 is the
empty string in both cases. -/
theorem create_layout_zaxis_rules (xl yl zl n1 n2 : String)
    (g1 g2 : List (List Rat)) (L : SceneLayout)
    (h : create_layout xl yl zl n1 n2 g1 g2 = some L) :
    (strContains n1 "SEE" = true → L.zaxis.range = [0, 14]) ∧
    (strContains n1 "SEE" = false → L.zaxis.range = [0, 6]) ∧
    (strContains n1 "WPI" = true →
      L.zaxis.tickvals = [0, 2, 4, 6, 8, 10, 12, 14, 16, 18, 20] ∧
      L.zaxis.ticktext =
        ["", "2", "4", "6", "8", "10", "12", "14", "16", "18", "20"]) ∧
    (strContains n1 "WPI" = false →
      L.zaxis.tickvals = [0, 2, 4, 6, 8, 10, 12, 14] ∧
      L.zaxis.ticktext = ["", "2", "4", "6", "8", "10", "12", "14"]) ∧
    L.zaxis.ticktext.headD "x" = "" := by
  cases hc1 : _extracted_from_create_layout_31 g1 with
  | none => simp [create_layout, hc1] at h
  | some a1 =>
    cases hc2 : _extracted_from_create_layout_31 g2 with
    | none => simp [create_layout, hc1, hc2] at h
    | some a2 =>
      simp only [create_layout, hc1, hc2, Option.some.injEq] at h
      subst h
      cases hwpi : strContains n1 "WPI" <;>
        cases hsee : strContains n1 "SEE" <;>
          simp [hwpi, hsee]

/-- Claim C2 witness: for `"CS_EV_A"` (no `"WPI"`, no `"SEE"`) the
z-axis range is `[0, 6]`. -/
theorem create_layout_zaxis_witness :
    (SceneLayout.zaxis
      { xaxis :=
          { range := [0, 10]
            ticktext := ["0", "2", "4", "6", "8", "10"]
            tickvals := [0, 2, 4, 6, 8, 10] }
        yaxis :=
          { range := [0, 3 / 2]
            ticktext := ["0", "0.5", "1.0", "1.5"]
            tickvals := [0, 1 / 2, 1, 3 / 2] }
        zaxis :=
          { range := [0, 6]
            ticktext := ["", "2", "4", "6", "8", "10", "12", "14"]
            tickvals := [0, 2, 4, 6, 8, 10, 12, 14] }
        ann1_z := 2
        ann2_z := 3 }).range = [0, 6] :=
  ((create_layout_zaxis_rules "a" "b" "c" "CS_EV_A" "CS_EV_B" [[2]] [[3]] _
      (by
        have hw : strContains "CS_EV_A" "WPI" = false := by decide
        have hs : strContains "CS_EV_A" "SEE" = false := by decide
        simp [create_layout, _extracted_from_create_layout_31, hw, hs])).2.1)
    (by decide)

/-- Claim C9: for equal-length arrays whose base array is non-constant
(`min < max`), the divisor `max - min` is nonzero and
`percentage_difference` returns elementwise
`100 * |base - compare| / (max(base) - min(base))`. -/
theorem percentage_difference_formula (base_array compare_array : List Rat)
    (m mn : Rat) (hlen : base_array.length = compare_array.length)
    (hmax : listMax base_array = some m) (hmin : listMin base_array = some mn)
    (hlt : mn < m) :
    m - mn ≠ 0 ∧
    percentage_difference base_array compare_array =
      some (List.zipWith (fun a b => 100 * |a - b| / (m - mn))
        base_array compare_array) := by
  refine ⟨sub_ne_zero_of_ne (ne_of_gt hlt), ?_⟩
  simp only [percentage_difference, hmax, hmin, Option.some.injEq,
    List.map_zipWith]
  congr 1
  funext a b
  ring

/-- Claim C9 witness: base `[0, 2]`, compare `[0, 1]` gives divisor 2
and elementwise differences 0% and 50%. -/
theorem percentage_difference_witness :
    (2 : Rat) - 0 ≠ 0 ∧
    percentage_difference [0, 2] [0, 1] = some [0, 50] :=
  ⟨(percentage_difference_formula [0, 2] [0, 1] 2 0 rfl (by decide) (by decide)
      (by decide)).1,
   ((percentage_difference_formula [0, 2] [0, 1] 2 0 rfl (by decide) (by decide)
      (by decide)).2).trans (by norm_num [List.zipWith])⟩

/-- Claim C3 counterexample: `n_colors = 13` with palette `"Set3"` (12
entries) raises `IndexError` in the loop (the code does not silently
truncate). -/
theorem make_colorscale_13_set3_raises :
    make_colorscale_distinct 13 "Set3" = .error "IndexError" := rfl

/-- Claim C3 (corrected): when `n_colors` exceeds the palette length the
builder raises an `IndexError` (the loop runs to `n_colors` but the
slice `colors[:n_colors]` cannot supply that many colors); with
`n_colors = 12` and `"Set3"` (exactly 12 entries) it succeeds. -/
theorem make_colorscale_overflow_raises :
    (∀ (n : Nat) (pal : String) (colors : List String),
      COLOR_SCALES.lookup pal = some colors → colors.length < n →
      make_colorscale_distinct n pal = .error "IndexError") ∧
    (make_colorscale_distinct 12 "Set3").toOption.isSome = true := by
  constructor
  · intro n pal colors hl hlen
    have hover : build_entries (linspace01 n) (colors.take n) n = none :=
      build_entries_overflow _ _ n (by simp [List.length_take]; omega)
    simp only [make_colorscale_distinct, hl, hover]
  · rfl

/-- Claim C3 witness: `n_colors = 14` with `"Set3"` also raises. -/
theorem make_colorscale_overflow_witness :
    make_colorscale_distinct 14 "Set3" = .error "IndexError" :=
  make_colorscale_overflow_raises.1 14 "Set3"
    ["#8DD3C7", "#FFFFB3", "#BEBADA", "#FB8072", "#80B1D3", "#FDB462",
     "#B3DE69", "#FCCDE5", "#D9D9D9", "#BC80BD", "#CCEBC5", "#FFED6F"]
    rfl (by decide)

/-- Claim C4 counterexample: at `n_colors = 13` with `"Set3"` (a palette
name present in the table) the builder does not return a colorscale at
all, so the claimed `2 n` structure fails without the bound
`n_colors ≤ palette length`. -/
theorem make_colorscale_13_no_result :
    (make_colorscale_distinct 13 "Set3").toOption.isSome = false := by
  decide

/-- Claim C4 (corrected): for `1 ≤ n ≤ palette length`, the colorscale
has exactly `2 n` entries, every position is one of the `n + 1` evenly
spaced points of `[0, 1]`, positions are non-decreasing, start at 0 and
end at 1, and each of the first `n` palette colors occurs exactly
twice. -/
theorem make_colorscale_distinct_spec (n : Nat) (pal : String)
    (colors : List String) (l : List (Rat × String))
    (hl : COLOR_SCALES.lookup pal = some colors) (hn : 1 ≤ n)
    (hcount : n ≤ colors.length)
    (hok : make_colorscale_distinct n pal = .ok l) :
    l.length = 2 * n ∧
    (∀ p ∈ l, p.1 ∈ linspace01 n) ∧
    List.Chain' (· ≤ ·) (l.map Prod.fst) ∧
    (l.map Prod.fst).head? = some 0 ∧
    (l.map Prod.fst).getLast? = some 1 ∧
    (∀ i, i < n → l.countP (fun p => p.2 == colors.getD i "") = 2) := by
  have htl : (colors.take n).length = n := by
    simp [List.length_take]
    omega
  have hbe : build_entries (linspace01 n) (colors.take n) n =
      some (entriesList (linspace01 n) (colors.take n) n) :=
    build_entries_eq _ _ n (by omega) (by rw [linspace01_length])
  have hleq : l = entriesList (linspace01 n) (colors.take n) n := by
    simp only [make_colorscale_distinct, hl, hbe, Except.ok.injEq] at hok
    exact hok.symm
  subst hleq
  have hlen2 : (entriesList (linspace01 n) (colors.take n) n).length = 2 * n :=
    entriesList_length _ _ n
  have hget : ∀ (k : Nat), k < 2 * n →
      (entriesList (linspace01 n) (colors.take n) n).get? k =
        some ((linspace01 n).getD ((k + 1) / 2) 0,
          (colors.take n).getD (k / 2) "") :=
    entriesList_get? _ _ n
  refine ⟨hlen2, ?_, ?_, ?_, ?_, ?_⟩
  · intro p hp
    obtain ⟨k, hk⟩ := List.mem_iff_get?.mp hp
    obtain ⟨hklt, -⟩ := List.get?_eq_some.mp hk
    rw [hlen2] at hklt
    rw [hget k hklt] at hk
    obtain rfl : p = ((linspace01 n).getD ((k + 1) / 2) 0,
        (colors.take n).getD (k / 2) "") := (Option.some.inj hk).symm
    have hle2 : (k + 1) / 2 ≤ n := by omega
    rw [linspace01_getD n _ hle2]
    exact List.mem_map.mpr ⟨(k + 1) / 2,
      List.mem_range.mpr (by omega), rfl⟩
  · rw [List.chain'_iff_get]
    intro i hi
    rw [List.length_map, hlen2] at hi
    have hmget : ∀ (k : Nat) (hk : k < 2 * n)
        (hk2 : k < (List.map Prod.fst
          (entriesList (linspace01 n) (colors.take n) n)).length),
        (List.map Prod.fst (entriesList (linspace01 n) (colors.take n) n)).get
            ⟨k, hk2⟩ = (linspace01 n).getD ((k + 1) / 2) 0 := by
      intro k hk hk2
      have hg : (List.map Prod.fst
          (entriesList (linspace01 n) (colors.take n) n)).get? k =
          some ((linspace01 n).getD ((k + 1) / 2) 0) := by
        rw [List.get?_map, hget k hk]
        rfl
      rw [List.get?_eq_get hk2] at hg
      exact Option.some.inj hg
    rw [hmget i (by omega) (by simp [hlen2]; omega),
      hmget (i + 1) (by omega) (by simp [hlen2]; omega)]
    rw [linspace01_getD n _ (by omega), linspace01_getD n _ (by omega)]
    exact linspace01_val_le n _ _ (by omega) (by omega)
  · rw [head?_eq_get?0, List.get?_map, hget 0 (by omega)]
    simp only [Option.map_some', Option.some.injEq]
    rw [linspace01_getD n _ (by omega)]
    norm_num
  · have e : (2 * n - 1 + 1) / 2 = n := by omega
    have hne : (n : Rat) ≠ 0 := Nat.cast_ne_zero.mpr (by omega)
    rw [getLast?_eq_get?, List.length_map, hlen2, List.get?_map,
      hget (2 * n - 1) (by omega), e]
    simp only [Option.map_some', Option.some.injEq]
    rw [linspace01_getD n n le_rfl]
    exact div_self hne
  · intro i hi
    have hnd : (colors.take n).Nodup :=
      (List.take_sublist n colors).nodup
        (palettes_nodup (pal, colors) (lookup_mem _ _ _ hl))
    have h2 := entriesList_countP_two (linspace01 n) (colors.take n) hnd n
      (by omega) i hi
    rw [getD_take colors n i hi] at h2
    exact h2

/-- Claim C4 witness: `n = 2` with `"Set3"` yields a 4-entry
colorscale. -/
theorem make_colorscale_spec_witness :
    (entriesList (linspace01 2)
      (["#8DD3C7", "#FFFFB3", "#BEBADA", "#FB8072", "#80B1D3", "#FDB462",
        "#B3DE69", "#FCCDE5", "#D9D9D9", "#BC80BD", "#CCEBC5",
        "#FFED6F"].take 2) 2).length = 2 * 2 :=
  (make_colorscale_distinct_spec 2 "Set3"
    ["#8DD3C7", "#FFFFB3", "#BEBADA", "#FB8072", "#80B1D3", "#FDB462",
     "#B3DE69", "#FCCDE5", "#D9D9D9", "#BC80BD", "#CCEBC5", "#FFED6F"] _
    rfl (by decide) (by decide)
    (by
      simp only [make_colorscale_distinct,
        build_entries_eq (linspace01 2)
          (["#8DD3C7", "#FFFFB3", "#BEBADA", "#FB8072", "#80B1D3", "#FDB462",
            "#B3DE69", "#FCCDE5", "#D9D9D9", "#BC80BD", "#CCEBC5",
            "#FFED6F"].take 2) 2 (by decide) (by rw [linspace01_length])]
      rfl)).1

end ClaimTheorems

end SurfacePlots
